import Mathlib

/-!
Shallow embedding of the VGCP tunnel-detection engine:
`src/docs/insight_engine.py` (InsightAwareKernel) and
`src/docs/uavi_humor.py` (HumorAwareKernel).

Python floats are modelled as rationals: every value the code produces is
an exact small rational (an integer ratio, `10.0`, or `1.0/k`), so the
embedding is exact on all reachable values.
-/

namespace VGCP

/-- Node kinds used by the sources (NodeType.PREMISE, NodeType.CLAIM). -/
inductive NodeType where
  | premise
  | claim
  deriving DecidableEq

/-- ThoughtNode: identifier, node kind, free-text content, and a metadata
mapping; the engine only reads the list stored under the key "tags"
(`node.metadata.get('tags', [])`). -/
structure ThoughtNode where
  id : String
  node_type : NodeType
  content : String
  metadata : List (String × List String) := []
  deriving DecidableEq

/-- `node.metadata.get('tags', [])` from `uavi_humor.py`. -/
def metadataTags (n : ThoughtNode) : List String :=
  (n.metadata.lookup "tags").getD []

/-- Errors an engine call can surface. `valueError` models the Python
`ValueError` that `int(start[1:])` raises on a non-numeric id suffix;
`invalidInput` and `nodeNotFound` are the error taxonomy the claims speak
about, so that "fails with InvalidInput / NodeNotFound" is statable. -/
inductive EngineError where
  | valueError
  | invalidInput
  | nodeNotFound
  deriving DecidableEq

/-- The four magnitude labels the classifier can assign
("Minor", "Major", "Epiphany", "Paradigm Shift"). -/
inductive Magnitude where
  | minor
  | major
  | epiphany
  | paradigmShift
  deriving DecidableEq

/-- One decimal digit of an id suffix. -/
def decimalDigit (c : Char) : Option Nat :=
  if c.isDigit then some (c.toNat - 48) else none

/-- Fold a digit string into a number; `none` accumulator means no digit
seen yet, so the empty suffix parses to nothing (Python `int("")` raises). -/
def parseDecimal : List Char → Option Nat → Option Nat
  | [], acc => acc
  | c :: cs, acc =>
    match decimalDigit c, acc with
    | some d, some n => parseDecimal cs (some (10 * n + d))
    | some d, none => parseDecimal cs (some d)
    | none, _ => none

/-- `int(s[1:])`: parse the id after its first character as a decimal
number; `none` models the `ValueError` on a non-numeric suffix. -/
def idSuffixNat (s : String) : Option Nat :=
  parseDecimal (s.data.drop 1) none

/-- `_get_graph_distance` of `InsightAwareKernel`: the mock distance
`abs(int(start[1:]) - int(end[1:]))`.  It is computed from the two id
strings alone and consults no graph. -/
def _get_graph_distance (s t : String) : Except EngineError Nat :=
  match idSuffixNat s, idSuffixNat t with
  | some a, some b => .ok ((a : Int) - (b : Int)).natAbs
  | _, _ => .error .valueError

/-- `InsightEvent` dataclass of `insight_engine.py`. -/
structure InsightEvent where
  source_id : String
  target_id : String
  surface_distance : Nat
  tunnel_distance : Nat
  compression_ratio : ℚ
  magnitude : Magnitude
  deriving DecidableEq

/-- The magnitude ladder of step 5 of `calculate_connection_capacity`.
The source assigns "Minor" and then overwrites it on each passing test
(`if ratio > 2`, `> 5`, `> 10` in ascending order, the last passing test
winning), which is the same function as this descending if-chain. -/
def classifyMagnitude (ratio : ℚ) : Magnitude :=
  if ratio > 10 then .paradigmShift
  else if ratio > 5 then .epiphany
  else if ratio > 2 then .major
  else .minor

/-- `_check_resonance` of `InsightAwareKernel`: the placeholder always
returns `True`. -/
def check_resonance (_a _b : ThoughtNode) : Bool := true

/-- `calculate_connection_capacity`, parameterized over the resonance
method (`self._check_resonance` is a method, so a subclass may override
it; claims quantify over that choice).  Control flow mirrors the source:
distance (propagating its failure), the `<= 1` adjacency gate, the
resonance gate, ratio, magnitude, and the built event. -/
def calculate_connection_capacity_with
    (resonance : ThoughtNode → ThoughtNode → Bool)
    (node_a node_b : ThoughtNode) : Except EngineError (Option InsightEvent) :=
  match _get_graph_distance node_a.id node_b.id with
  | .error e => .error e
  | .ok current_path_len =>
    if current_path_len ≤ 1 then .ok none
    else
      let tunnel_len : Nat := 1
      if resonance node_a node_b = false then .ok none
      else
        let ratio : ℚ := (current_path_len : ℚ) / (tunnel_len : ℚ)
        let magnitude : Magnitude := classifyMagnitude ratio
        .ok (some {
          source_id := node_a.id
          target_id := node_b.id
          surface_distance := current_path_len
          tunnel_distance := tunnel_len
          compression_ratio := ratio
          magnitude := magnitude })

/-- `calculate_connection_capacity` exactly as the source runs it, with the
kernel's own always-true `_check_resonance`. -/
def calculate_connection_capacity (node_a node_b : ThoughtNode) :
    Except EngineError (Option InsightEvent) :=
  calculate_connection_capacity_with check_resonance node_a node_b

/-- `HumorMetric` dataclass of `uavi_humor.py`. -/
structure HumorMetric where
  surface_distance : ℚ
  tunnel_distance : ℚ
  compression_ratio : ℚ
  deriving DecidableEq

/-- `_simulate_semantic_distance` of `HumorAwareKernel`: tag-overlap
simulation.  `set(a) & set(b)` cardinality via `Finset`; nonempty overlap
gives `1.0 / intersection`, disjoint tags give `10.0`. -/
def _simulate_semantic_distance (node_a node_b : ThoughtNode) : ℚ :=
  let tags_a := (metadataTags node_a).toFinset
  let tags_b := (metadataTags node_b).toFinset
  let intersection := (tags_a ∩ tags_b).card
  if intersection > 0 then 1 / (intersection : ℚ) else 10

/-- `measure_humor_potential` of `HumorAwareKernel`: surface distance from
the simulation, tunnel distance fixed at `1.0`, ratio guarded by the
source's `if tunnel_dist > 0 else 0` fallback. -/
def measure_humor_potential (setup punchline : ThoughtNode) : HumorMetric :=
  let surface_dist := _simulate_semantic_distance setup punchline
  let tunnel_dist : ℚ := 1
  let ratio := if tunnel_dist > 0 then surface_dist / tunnel_dist else 0
  { surface_distance := surface_dist
    tunnel_distance := tunnel_dist
    compression_ratio := ratio }

/-- Node `n1` built by `demonstrate_aha_moment`. -/
def demoN1 : ThoughtNode :=
  { id := "n1", node_type := .premise
    content := "Light creates interference patterns." }

/-- Node `n10` built by `demonstrate_aha_moment`. -/
def demoN10 : ThoughtNode :=
  { id := "n10", node_type := .claim
    content := "Light ejects electrons as particles." }

/-- Node `setup` built by `demonstrate_compression_tunnel`. -/
def demoSetup : ThoughtNode :=
  { id := "setup", node_type := .premise
    content := "I asked the librarian for books on paranoia."
    metadata := [("tags", ["library", "books", "information"])] }

/-- Node `punchline` built by `demonstrate_compression_tunnel`. -/
def demoPunchline : ThoughtNode :=
  { id := "punchline", node_type := .claim
    content := "She whispered: they are right behind you."
    metadata := [("tags", ["conspiracy", "fear", "whisper"])] }

/-- Rank of a magnitude in the order Minor < Major < Epiphany <
ParadigmShift. -/
def magnitudeRank : Magnitude → Nat
  | .minor => 0
  | .major => 1
  | .epiphany => 2
  | .paradigmShift => 3

/-- The `InsightEvent` that `demonstrate_aha_moment`'s call produces,
written with the exact field expressions the engine builds. -/
def demoInsightEvent : InsightEvent :=
  { source_id := "n1"
    target_id := "n10"
    surface_distance := 9
    tunnel_distance := 1
    compression_ratio := ((9 : Nat) : ℚ) / ((1 : Nat) : ℚ)
    magnitude := classifyMagnitude (((9 : Nat) : ℚ) / ((1 : Nat) : ℚ)) }

/-- Inversion principle: whenever the engine produces an event, the
distance call succeeded with some `d`, both gates passed, and every field
of the event is determined by `d` and the input ids. -/
theorem calc_with_ok_some
    (resonance : ThoughtNode → ThoughtNode → Bool) (a b : ThoughtNode)
    (e : InsightEvent)
    (h : calculate_connection_capacity_with resonance a b = .ok (some e)) :
    ∃ d : Nat, _get_graph_distance a.id b.id = .ok d ∧ 1 < d ∧
      resonance a b = true ∧
      e.source_id = a.id ∧ e.target_id = b.id ∧
      e.surface_distance = d ∧ e.tunnel_distance = 1 ∧
      e.compression_ratio = (d : ℚ) ∧
      e.magnitude = classifyMagnitude (d : ℚ) := by
  unfold calculate_connection_capacity_with at h
  cases hd : _get_graph_distance a.id b.id with
  | error err => rw [hd] at h; exact absurd h (by simp)
  | ok d =>
    rw [hd] at h
    dsimp only at h
    by_cases h1 : d ≤ 1
    · rw [if_pos h1] at h; simp at h
    · rw [if_neg h1] at h
      by_cases hr : resonance a b = false
      · rw [if_pos hr] at h; simp at h
      · rw [if_neg hr] at h
        simp only [Except.ok.injEq, Option.some.injEq] at h
        have hdiv : ((d : Nat) : ℚ) / ((1 : Nat) : ℚ) = (d : ℚ) := by
          norm_num
        refine ⟨d, rfl, by omega, by simpa using hr, ?_, ?_, ?_, ?_, ?_, ?_⟩ <;>
          rw [← h] <;> simp only [hdiv]

/-- C1: the magnitude classifier is a fixed strict-greater threshold
ladder on the compression ratio where the highest satisfied tier wins:
r > 10 gives ParadigmShift, 5 < r ≤ 10 gives Epiphany, 2 < r ≤ 5 gives
Major, 1 < r ≤ 2 gives Minor; in particular a ratio of exactly 2 is
Minor, exactly 5 is Major, and exactly 10 is Epiphany. -/
theorem classify_threshold_ladder (r : ℚ) :
    (10 < r → classifyMagnitude r = .paradigmShift) ∧
    (5 < r ∧ r ≤ 10 → classifyMagnitude r = .epiphany) ∧
    (2 < r ∧ r ≤ 5 → classifyMagnitude r = .major) ∧
    (1 < r ∧ r ≤ 2 → classifyMagnitude r = .minor) ∧
    classifyMagnitude 2 = .minor ∧
    classifyMagnitude 5 = .major ∧
    classifyMagnitude 10 = .epiphany := by
  unfold classifyMagnitude
  refine ⟨?_, ?_, ?_, ?_, by norm_num, by norm_num, by norm_num⟩
  · intro h
    rw [if_pos h]
  · rintro ⟨h1, h2⟩
    rw [if_neg (by simpa using h2), if_pos h1]
  · rintro ⟨h1, h2⟩
    rw [if_neg (by simp; linarith), if_neg (by simpa using h2), if_pos h1]
  · rintro ⟨h1, h2⟩
    rw [if_neg (by simp; linarith), if_neg (by simp; linarith),
      if_neg (by simpa using h2)]

/-- C1 witness: the ladder applied at the concrete ratio 11. -/
theorem classify_threshold_ladder_witness :
    classifyMagnitude 11 = .paradigmShift :=
  (classify_threshold_ladder 11).1 (by norm_num)

/-- C9: magnitude is a deterministic function of the compression ratio
alone (every produced event's magnitude is `classifyMagnitude` of its
ratio) and that function is monotone for the order
Minor < Major < Epiphany < ParadigmShift. -/
theorem classify_monotone_and_determined (r1 r2 : ℚ) (h : r1 ≤ r2) :
    magnitudeRank (classifyMagnitude r1) ≤ magnitudeRank (classifyMagnitude r2) ∧
    ∀ (resonance : ThoughtNode → ThoughtNode → Bool) (a b : ThoughtNode)
      (e : InsightEvent),
      calculate_connection_capacity_with resonance a b = .ok (some e) →
      e.magnitude = classifyMagnitude e.compression_ratio := by
  constructor
  · unfold classifyMagnitude
    split_ifs <;> first | decide | (exfalso; linarith)
  · intro resonance a b e he
    obtain ⟨d, _, _, _, _, _, _, _, hc, hm⟩ :=
      calc_with_ok_some resonance a b e he
    rw [hm, hc]

/-- C9 witness: monotonicity applied at the concrete ratios 3 and 7. -/
theorem classify_monotone_witness :
    magnitudeRank (classifyMagnitude 3) ≤ magnitudeRank (classifyMagnitude 7) :=
  (classify_monotone_and_determined 3 7 (by norm_num)).1

/-- C2: whenever the reported surface distance exceeds 1 and the
resonance oracle answers true, the engine returns some event whose
compression ratio equals the surface distance (tunnel distance being
fixed at 1). -/
theorem evaluate_far_resonant_some
    (resonance : ThoughtNode → ThoughtNode → Bool) (a b : ThoughtNode)
    (d : Nat)
    (hd : _get_graph_distance a.id b.id = .ok d) (h1 : 1 < d)
    (hr : resonance a b = true) :
    ∃ e : InsightEvent,
      calculate_connection_capacity_with resonance a b = .ok (some e) ∧
      e.compression_ratio = (e.surface_distance : ℚ) ∧
      e.surface_distance = d ∧
      e.tunnel_distance = 1 := by
  refine ⟨{ source_id := a.id
            target_id := b.id
            surface_distance := d
            tunnel_distance := 1
            compression_ratio := ((d : Nat) : ℚ) / ((1 : Nat) : ℚ)
            magnitude := classifyMagnitude (((d : Nat) : ℚ) / ((1 : Nat) : ℚ)) },
    ?_, by norm_num, rfl, rfl⟩
  unfold calculate_connection_capacity_with
  rw [hd]
  dsimp only
  rw [if_neg (by omega), if_neg (by simp [hr])]

/-- C2 witness: a true oracle over the demo nodes n1 and n10, whose
mock distance is 9. -/
theorem evaluate_far_resonant_some_witness :
    ∃ e : InsightEvent,
      calculate_connection_capacity_with (fun _ _ => true) demoN1 demoN10 =
        .ok (some e) ∧
      e.compression_ratio = (e.surface_distance : ℚ) ∧
      e.surface_distance = 9 ∧
      e.tunnel_distance = 1 :=
  evaluate_far_resonant_some (fun _ _ => true) demoN1 demoN10 9 rfl
    (by norm_num) rfl

/-- C3: if the reported surface distance is at most 1 the engine returns
none whatever the resonance method would answer, and if the distance
exceeds 1 but resonance answers false the engine also returns none. -/
theorem evaluate_gated_none
    (resonance : ThoughtNode → ThoughtNode → Bool) (a b : ThoughtNode)
    (d : Nat)
    (hd : _get_graph_distance a.id b.id = .ok d) :
    (d ≤ 1 → calculate_connection_capacity_with resonance a b = .ok none) ∧
    (1 < d → resonance a b = false →
      calculate_connection_capacity_with resonance a b = .ok none) := by
  constructor
  · intro h1
    unfold calculate_connection_capacity_with
    rw [hd]
    dsimp only
    rw [if_pos h1]
  · intro h1 hr
    unfold calculate_connection_capacity_with
    rw [hd]
    dsimp only
    rw [if_neg (by omega), if_pos hr]

/-- C3 witness: an oracle that answers false never sees the result of the
adjacent pair (n1, n1), and blocks the far pair (n1, n10). -/
theorem evaluate_gated_none_witness :
    calculate_connection_capacity_with (fun _ _ => false) demoN1 demoN1 =
      .ok none ∧
    calculate_connection_capacity_with (fun _ _ => false) demoN1 demoN10 =
      .ok none :=
  ⟨(evaluate_gated_none (fun _ _ => false) demoN1 demoN1 0 rfl).1
      (by norm_num),
   (evaluate_gated_none (fun _ _ => false) demoN1 demoN10 9 rfl).2
      (by norm_num) rfl⟩

/-- C4 counterexample: the source has no equal-identifier check, so
`calculate_connection_capacity(n1, n1)` returns None (the mock distance is
0, which the adjacency gate absorbs) and does not fail with InvalidInput. -/
theorem evaluate_equal_nodes_cex :
    calculate_connection_capacity demoN1 demoN1 = .ok none ∧
    calculate_connection_capacity demoN1 demoN1 ≠
      .error EngineError.invalidInput := by
  refine ⟨rfl, ?_⟩
  intro h
  rw [show calculate_connection_capacity demoN1 demoN1 = .ok none from rfl] at h
  exact Except.noConfusion h

/-- C4 amended: for any two nodes with equal (parseable) identifiers and
any resonance method, the engine returns None — the zero self-distance is
absorbed by the `<= 1` adjacency gate and no InvalidInput error exists. -/
theorem evaluate_equal_ids_none
    (resonance : ThoughtNode → ThoughtNode → Bool) (a b : ThoughtNode)
    (n : Nat)
    (hid : a.id = b.id) (hn : idSuffixNat a.id = some n) :
    calculate_connection_capacity_with resonance a b = .ok none := by
  have hd : _get_graph_distance a.id b.id = .ok 0 := by
    unfold _get_graph_distance
    rw [← hid, hn]
    simp
  unfold calculate_connection_capacity_with
  rw [hd]
  dsimp only
  rw [if_pos (by omega)]

/-- C4 amended witness: the default engine on the pair (n1, n1). -/
theorem evaluate_equal_ids_none_witness :
    calculate_connection_capacity_with check_resonance demoN1 demoN1 =
      .ok none :=
  evaluate_equal_ids_none check_resonance demoN1 demoN1 1 rfl rfl

/-- Two nodes that share the two tags "library" and "books", giving a
tag intersection of size 2 in the humor distance simulation. -/
def sharedTagNodeA : ThoughtNode :=
  { id := "s1", node_type := .premise
    content := "I spend my days among library books."
    metadata := [("tags", ["library", "books"])] }

/-- Second node of the shared-tag pair. -/
def sharedTagNodeB : ThoughtNode :=
  { id := "s2", node_type := .claim
    content := "The library books are overdue."
    metadata := [("tags", ["library", "books"])] }

/-- C5 counterexample: a humor measurement of two nodes sharing two tags
has compression ratio 1/2, which is less than 1, so the ratio-at-least-1
invariant does not extend to every `measure_humor_potential` result. -/
theorem humor_ratio_lt_one_cex :
    (measure_humor_potential sharedTagNodeA sharedTagNodeB).compression_ratio
      = 1 / 2 ∧
    ¬(1 ≤ (measure_humor_potential sharedTagNodeA
        sharedTagNodeB).compression_ratio) := by
  have hs : _simulate_semantic_distance sharedTagNodeA sharedTagNodeB
      = 1 / (2 : ℚ) := by
    simp only [_simulate_semantic_distance]
    rw [show ((metadataTags sharedTagNodeA).toFinset ∩
        (metadataTags sharedTagNodeB).toFinset).card = 2 from rfl]
    norm_num
  have hm : (measure_humor_potential sharedTagNodeA
      sharedTagNodeB).compression_ratio = 1 / 2 := by
    simp only [measure_humor_potential, hs]
    norm_num
  exact ⟨hm, by rw [hm]; norm_num⟩

/-- C5 amended: every event the insight engine produces has tunnel
distance exactly 1 and compression ratio at least 1, and every humor
measurement has tunnel distance exactly 1; but the humor measurement's
compression ratio can drop below 1 (it equals the simulated surface
distance, which is 1/k for k shared tags). -/
theorem tunnel_invariants_amended
    (resonance : ThoughtNode → ThoughtNode → Bool) (a b : ThoughtNode)
    (e : InsightEvent)
    (h : calculate_connection_capacity_with resonance a b = .ok (some e)) :
    e.tunnel_distance = 1 ∧ 1 ≤ e.compression_ratio ∧
    ∀ setup punchline : ThoughtNode,
      (measure_humor_potential setup punchline).tunnel_distance = 1 := by
  obtain ⟨d, _, h1, _, _, _, _, ht, hc, _⟩ := calc_with_ok_some resonance a b e h
  refine ⟨ht, ?_, fun setup punchline => rfl⟩
  rw [hc]
  exact_mod_cast Nat.one_le_iff_ne_zero.mpr (by omega)

/-- C5 amended witness: the invariants at the demo insight event. -/
theorem tunnel_invariants_amended_witness :
    demoInsightEvent.tunnel_distance = 1 ∧
    1 ≤ demoInsightEvent.compression_ratio ∧
    ∀ setup punchline : ThoughtNode,
      (measure_humor_potential setup punchline).tunnel_distance = 1 :=
  tunnel_invariants_amended check_resonance demoN1 demoN10 demoInsightEvent rfl

/-- The node identifiers of the path-graph scenario n1..n10. -/
def demoNodeIds : List String :=
  ["n1", "n2", "n3", "n4", "n5", "n6", "n7", "n8", "n9", "n10"]

/-- C6 counterexample: "n99" is absent from the scenario's node set, yet
the mock distance returns the numeric value 98 for it and does not fail
with NodeNotFound. -/
theorem distance_missing_node_cex :
    "n99" ∉ demoNodeIds ∧
    _get_graph_distance "n1" "n99" = .ok 98 ∧
    _get_graph_distance "n1" "n99" ≠ .error EngineError.nodeNotFound := by
  refine ⟨by decide, rfl, ?_⟩
  intro h
  rw [show _get_graph_distance "n1" "n99" = .ok 98 from rfl] at h
  exact Except.noConfusion h

/-- C6 amended: the mock distance consults no graph at all — for ids with
numeric suffixes it returns a numeric distance even when an endpoint lies
outside any given node set, and it never fails with NodeNotFound (its only
failure is the ValueError on a non-numeric suffix). -/
theorem distance_ignores_node_set
    (nodeSet : List String) (s t : String) (m n : Nat)
    (hs : idSuffixNat s = some m) (ht : idSuffixNat t = some n)
    (_hmem : t ∉ nodeSet) :
    _get_graph_distance s t ≠ .error EngineError.nodeNotFound ∧
    ∃ d : Nat, _get_graph_distance s t = .ok d := by
  have hval : _get_graph_distance s t = .ok ((m : Int) - (n : Int)).natAbs := by
    unfold _get_graph_distance
    rw [hs, ht]
  constructor
  · rw [hval]
    intro h
    exact Except.noConfusion h
  · exact ⟨_, hval⟩

/-- C6 amended witness: the query ("n1", "n99") against the scenario's
node set. -/
theorem distance_ignores_node_set_witness :
    _get_graph_distance "n1" "n99" ≠ .error EngineError.nodeNotFound ∧
    ∃ d : Nat, _get_graph_distance "n1" "n99" = .ok d :=
  distance_ignores_node_set demoNodeIds "n1" "n99" 1 99 rfl rfl (by decide)

/-- C7: in the demo scenario (path graph n1..n10, surface distance 9,
always-true resonance) the engine yields an event with compression ratio
9 and magnitude Epiphany. -/
theorem demo_insight_is_epiphany :
    ∃ e : InsightEvent,
      calculate_connection_capacity demoN1 demoN10 = .ok (some e) ∧
      e.compression_ratio = 9 ∧
      e.surface_distance = 9 ∧
      e.magnitude = .epiphany := by
  refine ⟨demoInsightEvent, rfl, ?_, rfl, ?_⟩
  · show ((9 : Nat) : ℚ) / ((1 : Nat) : ℚ) = 9
    norm_num
  · show classifyMagnitude (((9 : Nat) : ℚ) / ((1 : Nat) : ℚ)) = .epiphany
    have : ((9 : Nat) : ℚ) / ((1 : Nat) : ℚ) = 9 := by norm_num
    rw [this]
    unfold classifyMagnitude
    norm_num

/-- C8: any two nodes with disjoint tag sets get simulated semantic
distance 10, a humor compression ratio of 10, and a ratio of exactly 10
classifies as Epiphany, not ParadigmShift. -/
theorem disjoint_tags_epiphany
    (a b : ThoughtNode)
    (h : (metadataTags a).toFinset ∩ (metadataTags b).toFinset = ∅) :
    _simulate_semantic_distance a b = 10 ∧
    (measure_humor_potential a b).compression_ratio = 10 ∧
    classifyMagnitude 10 = .epiphany ∧
    classifyMagnitude 10 ≠ .paradigmShift := by
  have hs : _simulate_semantic_distance a b = 10 := by
    simp only [_simulate_semantic_distance]
    rw [h]
    norm_num
  refine ⟨hs, ?_, by decide, by decide⟩
  simp only [measure_humor_potential, hs]
  norm_num

/-- C8 witness: the demo's setup and punchline nodes carry disjoint tag
sets. -/
theorem disjoint_tags_epiphany_witness :
    _simulate_semantic_distance demoSetup demoPunchline = 10 ∧
    (measure_humor_potential demoSetup demoPunchline).compression_ratio = 10 ∧
    classifyMagnitude 10 = .epiphany ∧
    classifyMagnitude 10 ≠ .paradigmShift :=
  disjoint_tags_epiphany demoSetup demoPunchline (by decide)

/-- C10: the humor measurement applies no adjacency or resonance gate —
for every pair of nodes, equal or not, it returns a metric whose tunnel
distance is exactly 1, whose compression ratio equals the simulated
surface distance (the ratio-0 division-guard fallback is unreachable),
and whose compression ratio is strictly positive. -/
theorem humor_total_no_gates (setup punchline : ThoughtNode) :
    (measure_humor_potential setup punchline).tunnel_distance = 1 ∧
    (measure_humor_potential setup punchline).compression_ratio =
      _simulate_semantic_distance setup punchline ∧
    0 < (measure_humor_potential setup punchline).compression_ratio := by
  have hr : (measure_humor_potential setup punchline).compression_ratio =
      _simulate_semantic_distance setup punchline := by
    simp only [measure_humor_potential]
    norm_num
  refine ⟨rfl, hr, ?_⟩
  rw [hr]
  simp only [_simulate_semantic_distance]
  split_ifs with hpos
  · exact div_pos one_pos (by exact_mod_cast hpos)
  · norm_num

end VGCP
